import Mathlib

/-!
# Verification of the calendar-backend availability and booking engine

Shallow embedding of the photography-session booking backend
(`routes/msAvailability.js`, `routes/msBookings` (unnamed part_006) and
`services/mapsService.js` (unnamed part_001)).

Conventions of the embedding:

* Clock times are minutes since local midnight (`Int`); a `HM` pair mirrors an
  `"HH:MM"` string that the source splits with `split(':')`.
* Calendar dates are day indices (`Int`, days since the civil epoch); the
  source's `new Date(dateString + "T00:00:00")` local-midnight parse makes the
  weekday a pure function of this index.
* Busy calendar events carry start/end in minutes relative to the local
  midnight of the queried date.  The server is assumed to run in the business
  timezone, so the source's local-parsed slot instants and UTC-parsed event
  instants live on one common axis.
* External collaborators (database rows, Microsoft Graph events, the Google
  routes lookups) are oracle fields of an environment record; a fallible
  external call is an `Except Unit` value.
-/

/-- `"HH:MM"` time-of-day as the source sees it after `split(':')`. -/
structure HM where
  hours : Nat
  minutes : Nat
deriving DecidableEq, Repr

/-- `timeToMinutes` of msAvailability.js (lines 66-69). -/
def timeToMinutes (t : HM) : Int :=
  (t.hours : Int) * 60 + (t.minutes : Int)

/-- `getCorrectDayOfWeek` (msAvailability.js lines 8-11): the weekday of the
local civil date.  Day index 0 is the civil epoch 1970-01-01, a Thursday
(JS `getDay() = 4`). -/
def getCorrectDayOfWeek (d : Int) : Nat :=
  ((d + 4).emod 7).toNat

/-- `isDateInPast` (msAvailability.js lines 14-21). -/
def isDateInPast (d today : Int) : Bool :=
  d < today

/-- `isDateToday` (msAvailability.js lines 24-32). -/
def isDateToday (d today : Int) : Bool :=
  d = today

/-- `isDateTomorrow` (msAvailability.js lines 35-46). -/
def isDateTomorrow (d today : Int) : Bool :=
  d = today + 1

/-- `isBeforeCutoffTime` (msAvailability.js lines 49-63): true when the current
business-local time, formatted as hours/minutes, satisfies
`hours < 17 || (hours === 17 && minutes === 0)`. -/
def isBeforeCutoffTime (nowHours nowMinutes : Nat) : Bool :=
  nowHours < 17 || (nowHours = 17 && nowMinutes = 0)

/-- `doTimesOverlap` (msAvailability.js lines 88-90). -/
def doTimesOverlap (start1 end1 start2 end2 : Int) : Bool :=
  start1 < end2 && start2 < end1

/-! ## mapsService (src/unnamed/part_001) -/

/-- Geographic coordinates as produced by geocoding. -/
structure LatLng where
  latitude : Rat
  longitude : Rat
deriving DecidableEq, Repr

/-- `this.officeLatLng` of mapsService (part_001 lines 10-13). -/
def officeLatLng : LatLng :=
  { latitude := 26.9342, longitude := -80.0942 }

/-- The hard-coded Stuart-area fallback coordinates (part_001 lines 97-100). -/
def stuartFallback : LatLng :=
  { latitude := 27.1476881, longitude := -80.21795449999999 }

/-- JS `String.prototype.toUpperCase` restricted to ASCII, written over the
character list so it is kernel-executable. -/
def asciiUpperChar (c : Char) : Char :=
  if c.toNat ≥ 97 && c.toNat ≤ 122 then Char.ofNat (c.toNat - 32) else c

/-- JS `s.toUpperCase()`. -/
def jsToUpper (s : String) : String :=
  ⟨s.data.map asciiUpperChar⟩

/-- The whitespace JS `String.prototype.trim` strips (the address strings in
play only ever carry these). -/
def isJsWhitespace (c : Char) : Bool :=
  c = ' ' || c = '\t' || c = '\n' || c = '\r'

/-- JS `s.trim()`. -/
def jsTrim (s : String) : String :=
  ⟨((s.data.dropWhile isJsWhitespace).reverse.dropWhile isJsWhitespace).reverse⟩

/-- `as.isPrefixOf bs` over characters, written out so the embedding carries no
library dependence: JS `String.prototype.includes` is a plain substring scan. -/
def hasPrefixChars : List Char → List Char → Bool
  | [], _ => true
  | _ :: _, [] => false
  | a :: as, b :: bs => a = b && hasPrefixChars as bs

/-- JS `s.includes(pat)`: `pat` occurs as a contiguous substring of `s`. -/
def jsIncludes (s pat : String) : Bool :=
  s.data.tails.any (fun t => hasPrefixChars pat.data t)

/-- `addressToLatLng` (part_001 lines 28-112).  `geocode` is the outcome of
the geocoding request (`Except.error` covers both a non-`OK` API status and a
thrown request error, which the source funnels into one catch block).  An
empty address throws (`.error`); a geocoding failure never propagates: known
"Stuart"-area substrings get the hard-coded fallback, anything else gets the
office's own coordinates. -/
def addressToLatLng (address : String) (geocode : Except Unit LatLng) :
    Except Unit LatLng :=
  if address = "" then
    .error ()
  else
    let normalizedAddress := jsTrim address
    match geocode with
    | .ok r => .ok r
    | .error _ =>
        if jsIncludes (jsToUpper normalizedAddress) "STUART"
            || jsIncludes (jsToUpper normalizedAddress) "SE FEDERAL HWY" then
          .ok stuartFallback
        else
          .ok officeLatLng

/-- `calculateTravelTime` (part_001 lines 155-281), reduced to the field the
buffer computation reads: the traffic-aware one-way duration in seconds.
`route` is the route-matrix lookup; on any failure the source returns a fixed
default object whose `duration_in_traffic.value` is 2100 seconds. -/
def calculateTravelTime (route : Except Unit Nat) : Nat :=
  match route with
  | .ok seconds => seconds
  | .error _ => 2100

/-- JS `Math.ceil(a / b)` for natural `a` and positive literal `b`. -/
def jsCeilDiv (a b : Nat) : Nat :=
  (a + b - 1) / b

/-- `calculateTravelTimeBuffer` (part_001 lines 291-340): one-way minutes
`Math.ceil(seconds / 60)` rounded up to the next 30-minute multiple. -/
def calculateTravelTimeBuffer (route : Except Unit Nat) : Nat :=
  let travelTimeMinutes := jsCeilDiv (calculateTravelTime route) 60
  jsCeilDiv travelTimeMinutes 30 * 30

/-! ## Duration policy (`calculateDurationFromSquareFootage`,
msAvailability.js lines 107-179) -/

/-- `calculateDurationFromSquareFootage`.  `sqft`/`price` are the outcomes of
the source's `parseInt` (`none` = absent or `NaN`); `address` is the optional
property address; `travel` is the outcome of the
`mapsService.calculateTravelTimeBuffer` call (`.error` = the awaited call
rejected, handled by the catch block that adds `30 * 2`). -/
def calculateDurationFromSquareFootage (sqft : Option Int) (price : Option Int)
    (address : Option String) (travel : Except Unit Nat) : Int :=
  let duration : Int := 120
  let duration :=
    match sqft with
    | none => duration
    | some s => if s < 3000 then 60 else if s < 4000 then 90 else 120
  let duration :=
    match price with
    | none => duration
    | some p =>
        if p ≥ 5000000 then duration + 60
        else if p ≥ 1000000 then duration + 30
        else duration
  match address with
  | none => duration
  | some _ =>
      match travel with
      | .ok travelBuffer => duration + (travelBuffer : Int) * 2
      | .error _ => duration + 30 * 2

/-- Spec-side base-duration table: `<3000 → 60`, `3000–3999 → 90`,
`≥4000 → 120`. -/
def baseMinutes (sqft : Int) : Int :=
  if sqft < 3000 then 60 else if sqft < 4000 then 90 else 120

/-- Spec-side price surcharge: `≥ 5,000,000 → 60`, `≥ 1,000,000 → 30`,
else `0`. -/
def priceSurchargeMinutes (price : Option Int) : Int :=
  match price with
  | none => 0
  | some p => if p ≥ 5000000 then 60 else if p ≥ 1000000 then 30 else 0

/-- The travel-buffer minutes the duration policy ends up using: the computed
buffer on success, the 30-minute default when the travel estimation errors. -/
def travelBufferUsed (travel : Except Unit Nat) : Int :=
  match travel with
  | .ok b => (b : Int)
  | .error _ => 30

/-- Coarse `service_type` duration table used when no square footage is given
(msAvailability.js lines 925-934). -/
def serviceTypeDuration (serviceType : String) : Int :=
  if serviceType = "standard" then 120
  else if serviceType = "extended" then 180
  else 60

/-! ## Availability engine data model (`router.get('/')`, msAvailability.js
lines 845-1294) -/

/-- A Microsoft Graph calendar event as the availability code reads it:
`showAs` status string, start/end instants (minutes relative to the local
midnight of the queried date) and the optional `location.displayName`. -/
structure MSEvent where
  showAs : String
  startMin : Int
  endMin : Int
  location : Option String
  subject : String
deriving DecidableEq, Repr

/-- Events counted as obstacles: `showAs === 'busy' || 'oof' || 'tentative'`
(msAvailability.js line 1111 and elsewhere). -/
def isBlockingEvent (e : MSEvent) : Bool :=
  e.showAs = "busy" || e.showAs = "oof" || e.showAs = "tentative"

/-- One active `operating_hours` row. -/
structure OpRow where
  open_time : HM
  close_time : HM
deriving DecidableEq, Repr

/-- One element of the returned `availableTimeSlots` array
(msAvailability.js lines 1277-1282); times kept in minutes (the source
formats them with `minutesToTime` for display). -/
structure TimeSlot where
  start_time : Int
  end_time : Int
  photographer : String
  is_primary : Bool
deriving DecidableEq, Repr

/-- Failure results the availability route can surface as HTTP errors (the
claims only exercise `noPhotographers`; database errors are out of the pure
model). -/
inductive AvailError where
  | noPhotographers
deriving DecidableEq, Repr

/-- The availability request's query parameters.  `square_footage = some none`
is a present-but-non-numeric value (JS `parseInt` → `NaN`). -/
structure AvailQuery where
  date : Int
  service_type : Option String
  square_footage : Option (Option Int)
  property_price : Option Int
  property_address : Option String

/-- The external world the availability route reads: current date and local
clock, active holiday dates, active operating-hours rows per weekday,
configured photographers, fresh busy events per photographer, and the
`calculateTravelTimeBuffer` oracle keyed by the optional arrival instant it
is given. -/
structure AvailEnv where
  today : Int
  nowHours : Nat
  nowMinutes : Nat
  holidays : List Int
  opHours : Nat → List OpRow
  photographers : List String
  events : String → List MSEvent
  travel : Option Int → Except Unit Nat

/-- Duration selection of the route (msAvailability.js lines 920-934): square
footage wins, else the coarse service-type table, else 120.  The
square-footage branch calls `calculateDurationFromSquareFootage` without a
booking time, so its travel lookup carries no arrival instant. -/
def routeDuration (q : AvailQuery) (travel : Option Int → Except Unit Nat) :
    Int :=
  match q.square_footage with
  | some sqft =>
      calculateDurationFromSquareFootage sqft q.property_price
        q.property_address (travel none)
  | none =>
      match q.service_type with
      | some st => serviceTypeDuration st
      | none => 120

/-- The travel buffer the route computes once per request (msAvailability.js
lines 1026-1036): 0 without an address, the maps lookup with a 30-minute
catch fallback otherwise. -/
def routeTravelBuffer (q : AvailQuery)
    (travel : Option Int → Except Unit Nat) : Int :=
  match q.property_address with
  | none => 0
  | some _ =>
      match travel none with
      | .ok b => (b : Int)
      | .error _ => 30

/-- JS stable `sort((a, b) => endB - endA)` followed by `[0]`: the first
event with the latest end time (msAvailability.js lines 1164-1173). -/
def mostRecentPriorEvent (events : List MSEvent) : Option MSEvent :=
  events.foldl
    (fun acc e =>
      match acc with
      | none => some e
      | some a => if e.endMin > a.endMin then some e else acc)
    none

/-- JS stable `sort((a, b) => startA - startB)` followed by `[0]`: the first
event with the earliest start time (msAvailability.js lines 1219-1228). -/
def earliestNextEvent (events : List MSEvent) : Option MSEvent :=
  events.foldl
    (fun acc e =>
      match acc with
      | none => some e
      | some a => if e.startMin < a.startMin then some e else acc)
    none

/-- The location guard of the adjacent-gap check (msAvailability.js lines
1178-1181, 1233-1236): `location?.displayName` must be truthy and must not
contain the office address substring `'825 Parkway St'`. -/
def locationTriggersGapCheck (location : Option String) : Bool :=
  match location with
  | none => false
  | some loc => !(loc = "") && !(jsIncludes loc "825 Parkway St")

/-- One side of the adjacent-gap-sufficiency test: given the gap in minutes
between the slot and the chosen adjacent event, and the travel lookup keyed to
the slot boundary, decide whether the gap suffices.  `.error` on the lookup is
the catch branch, which falls back to requiring 30 minutes
(msAvailability.js lines 1176-1203, 1230-1259). -/
def gapSufficient (availableBufferMinutes : Int)
    (travel : Except Unit Nat) : Bool :=
  match travel with
  | .ok travelBuffer => !(availableBufferMinutes < (travelBuffer : Int))
  | .error _ => !(availableBufferMinutes < 30)

/-- The `hasSufficientTravelTime` computation for one photographer and one
candidate slot (msAvailability.js lines 1150-1262).  `slotStartMin` is the
slot's start instant; `slotEndDateMin` is the instant of the (possibly
traffic-adjusted) `slotEndDate`.  The check looks only at the most recent
blocking event strictly before the slot and the earliest blocking event
strictly after it, and only when the event's location passes the guard. -/
def hasSufficientTravelTime (photographerEvents : List MSEvent)
    (slotStartMin slotEndDateMin : Int)
    (travel : Option Int → Except Unit Nat) : Bool :=
  let priorEvents := photographerEvents.filter
    (fun e => isBlockingEvent e && e.endMin < slotStartMin)
  let afterPrior :=
    match mostRecentPriorEvent priorEvents with
    | none => true
    | some mostRecentEvent =>
        if locationTriggersGapCheck mostRecentEvent.location then
          gapSufficient (slotStartMin - mostRecentEvent.endMin)
            (travel (some slotStartMin))
        else
          true
  if afterPrior then
    let nextEvents := photographerEvents.filter
      (fun e => isBlockingEvent e && e.startMin > slotEndDateMin)
    match earliestNextEvent nextEvents with
    | none => true
    | some nextEvent =>
        if locationTriggersGapCheck nextEvent.location then
          gapSufficient (nextEvent.startMin - slotEndDateMin)
            (travel (some slotEndDateMin))
        else
          true
  else
    false

/-- Per-photographer admission for one candidate slot (msAvailability.js
lines 1091-1266): the travel-inflated full span must lie within operating
hours, must not overlap any blocking event
(`fullSlotStartUTC < eventEndUTC && fullSlotEndUTC > eventStartUTC`), and,
when an address was supplied, the adjacent-gap check must pass. -/
def photographerPasses (events : String → List MSEvent)
    (travel : Option Int → Except Unit Nat) (hasAddress : Bool)
    (openMinutes closeMinutes travelTimeBuffer : Int)
    (slotStart slotEnd slotEndDateMin : Int) (email : String) : Bool :=
  let fullSlotStartMinutes := slotStart - travelTimeBuffer
  let fullSlotEndMinutes := slotEnd + travelTimeBuffer
  if fullSlotStartMinutes < openMinutes || fullSlotEndMinutes > closeMinutes then
    false
  else
    let isPhotographerAvailable :=
      !((events email).any (fun e =>
        isBlockingEvent e &&
          (fullSlotStartMinutes < e.endMin && fullSlotEndMinutes > e.startMin)))
    let hasSufficient :=
      if hasAddress && isPhotographerAvailable then
        hasSufficientTravelTime (events email) slotStart slotEndDateMin travel
      else
        true
    isPhotographerAvailable && hasSufficient

/-- Body of one iteration of the candidate-slot loop (msAvailability.js lines
1044-1284): traffic-aware recalculation (which adjusts only the `slotEndDate`
instant, or skips the slot when the adjusted duration no longer fits), then
the per-photographer checks and primary-preferred assignment.  Returns `none`
when the iteration adds no slot. -/
def slotIteration (photographers : List String)
    (events : String → List MSEvent) (travel : Option Int → Except Unit Nat)
    (q : AvailQuery)
    (durationMinutes openMinutes closeMinutes travelTimeBuffer : Int)
    (slotStart : Int) : Option TimeSlot :=
  let actualAppointmentDuration := durationMinutes - travelTimeBuffer * 2
  let slotEnd := slotStart + actualAppointmentDuration
  let recalc :=
    if q.square_footage.isSome && q.property_address.isSome then
      let timeSpecificDuration :=
        calculateDurationFromSquareFootage (q.square_footage.getD none)
          q.property_price q.property_address (travel (some slotStart))
      if (timeSpecificDuration - durationMinutes).natAbs ≥ 30 then
        if slotStart + timeSpecificDuration > closeMinutes then
          none
        else
          some (slotStart + timeSpecificDuration)
      else
        some slotEnd
    else
      some slotEnd
  match recalc with
  | none => none
  | some slotEndDateMin =>
      let availablePhotographers := photographers.filter
        (photographerPasses events travel q.property_address.isSome openMinutes
          closeMinutes travelTimeBuffer slotStart slotEnd slotEndDateMin)
      if availablePhotographers.isEmpty then
        none
      else
        let isPrimary :=
          availablePhotographers.contains (photographers.headD "")
        let assignedPhotographer :=
          if isPrimary then photographers.headD ""
          else availablePhotographers.headD ""
        some
          { start_time := slotStart, end_time := slotEnd,
            photographer := assignedPhotographer, is_primary := isPrimary }

/-- The candidate-start loop
`for (let slotStart = adjustedOpenMinutes; slotStart + durationMinutes -
travelTimeBuffer*2 <= closeMinutes; slotStart += slotInterval)` with the
30-minute interval, written with an explicit iteration budget (`fuel`); the
caller supplies a budget at least as large as the number of iterations the
guard admits. -/
def slotLoop (photographers : List String)
    (events : String → List MSEvent) (travel : Option Int → Except Unit Nat)
    (q : AvailQuery)
    (durationMinutes openMinutes closeMinutes travelTimeBuffer : Int) :
    Nat → Int → List TimeSlot
  | 0, _ => []
  | fuel + 1, slotStart =>
      if slotStart + durationMinutes - travelTimeBuffer * 2 ≤ closeMinutes then
        (slotIteration photographers events travel q durationMinutes
            openMinutes closeMinutes travelTimeBuffer slotStart).toList ++
          slotLoop photographers events travel q durationMinutes openMinutes
            closeMinutes travelTimeBuffer fuel (slotStart + 30)
      else
        []

/-- An iteration budget sufficient for every start the loop guard admits. -/
def slotLoopFuel (durationMinutes closeMinutes travelTimeBuffer
    adjustedOpenMinutes : Int) : Nat :=
  (closeMinutes + travelTimeBuffer * 2 - durationMinutes -
    adjustedOpenMinutes).toNat / 30 + 1

/-- `router.get('/')` of msAvailability.js (lines 845-1294): the holiday,
same-day, cutoff and operating-hours gates, then the candidate-slot
enumeration.  Empty results are `.ok []`; a missing photographers
configuration is the one modelled hard error. -/
def availableSlots (env : AvailEnv) (q : AvailQuery) :
    Except AvailError (List TimeSlot) :=
  if isDateInPast q.date env.today then
    .ok []
  else if isDateToday q.date env.today then
    .ok []
  else if isDateTomorrow q.date env.today &&
      !isBeforeCutoffTime env.nowHours env.nowMinutes then
    .ok []
  else if q.date ∈ env.holidays then
    .ok []
  else
    match env.opHours (getCorrectDayOfWeek q.date) with
    | [] => .ok []
    | operatingRow :: _ =>
        if env.photographers.isEmpty then
          .error .noPhotographers
        else
          let durationMinutes := routeDuration q env.travel
          let openMinutes := timeToMinutes operatingRow.open_time
          let closeMinutes := timeToMinutes operatingRow.close_time
          let travelTimeBuffer := routeTravelBuffer q env.travel
          let adjustedOpenMinutes := openMinutes + travelTimeBuffer
          .ok (slotLoop env.photographers env.events env.travel q
            durationMinutes openMinutes closeMinutes travelTimeBuffer
            (slotLoopFuel durationMinutes closeMinutes travelTimeBuffer
              adjustedOpenMinutes)
            adjustedOpenMinutes)

/-! ## Create-booking route (`router.post('/')`, src/unnamed/part_006 lines
78-435) -/

/-- The POST body.  A field is `none` when absent (or falsy, which the
source's `!field` test treats the same way). -/
structure BookingReq where
  booking_date : Option Int
  start_time : Option HM
  end_time : Option HM
  customer_name : Option String
  customer_email : Option String
  customer_phone : Option String
  property_address : Option String
  property_city : Option String
  notes : Option String
  photographer_email : Option String

/-- External world of the create-booking route.  `holidays` is the holiday
table as the store holds it; note that the create path never queries it (the
update route does).  `travelSec` is the outcome of the
`mapsService.calculateTravelTime(fullAddress, startDateTime)` call: the
traffic-aware one-way seconds, or `.error` when the awaited call rejects
(the catch leaves the requested times unshifted and the buffer at 0). -/
structure BookingEnv where
  holidays : List Int
  opHours : Nat → List OpRow
  photographers : List String
  events : String → List MSEvent
  travelSec : Except Unit Nat

/-- Error responses of the create-booking route. -/
inductive BookingError where
  | missingFields
  | noPhotographers
  | invalidPhotographer
  | outsideHours
  | conflict
deriving DecidableEq, Repr

/-- The data a successful create returns / writes to the calendar: the
selected photographer, the travel-shifted (and possibly clamped) event window
in absolute minutes relative to the local midnight of the booking date, and
whether the overflow warning was appended to the travel notes. -/
structure BookingOk where
  photographer : String
  startDateTimeMin : Int
  endDateTimeMin : Int
  travelWarning : Bool
deriving DecidableEq, Repr

/-- The required-field validation (part_006 lines 96-99). -/
def missingRequiredFields (r : BookingReq) : Bool :=
  r.booking_date.isNone || r.start_time.isNone || r.end_time.isNone ||
    r.customer_name.isNone || r.customer_email.isNone ||
    r.property_address.isNone

/-- The conflict test of the create route (part_006 lines 279-281):
`(bookedStart >= eventStart && bookedStart < eventEnd) ||
 (bookedEnd > eventStart && bookedEnd <= eventEnd) ||
 (bookedStart <= eventStart && bookedEnd >= eventEnd)`. -/
def tripleOverlap (bookedStart bookedEnd eventStart eventEnd : Int) : Bool :=
  (bookedStart ≥ eventStart && bookedStart < eventEnd) ||
    (bookedEnd > eventStart && bookedEnd ≤ eventEnd) ||
    (bookedStart ≤ eventStart && bookedEnd ≥ eventEnd)

/-- Minutes-of-day of an absolute instant, as JS
`getHours() * 60 + getMinutes()` reads it (wrapping across midnight). -/
def minutesOfDay (abs : Int) : Int :=
  abs % 1440

/-- JS `date.setHours(h, m, 0)`: replace the time-of-day, keeping the civil
date the instant falls on. -/
def setMinutesOfDay (abs tod : Int) : Int :=
  abs.fdiv 1440 * 1440 + tod

/-- `router.post('/')` of the bookings route (part_006 lines 78-435):
required-field validation, photographer selection, travel-buffer expansion of
the requested window (`Math.ceil(seconds / 1800) * 30` minutes on each side),
the operating-hours check on the *requested* window, the silent clamp of the
travel-expanded window, and the conflict scan; success carries the event
window the calendar writes receive.  There is no holiday query on this
path. -/
def createBooking (env : BookingEnv) (r : BookingReq) :
    Except BookingError BookingOk :=
  if missingRequiredFields r then
    .error .missingFields
  else if env.photographers.isEmpty then
    .error .noPhotographers
  else if (match r.photographer_email with
      | some p => !(env.photographers.contains p)
      | none => false) then
    .error .invalidPhotographer
  else
    let selectedPhotographer :=
      r.photographer_email.getD (env.photographers.headD "")
    let bookingStartMinutes := timeToMinutes (r.start_time.getD ⟨0, 0⟩)
    let bookingEndMinutes := timeToMinutes (r.end_time.getD ⟨0, 0⟩)
    let shifted :=
      match env.travelSec with
      | .ok seconds =>
          let travelBuffer : Int := (jsCeilDiv seconds 1800 : Nat) * 30
          (bookingStartMinutes - travelBuffer, bookingEndMinutes + travelBuffer)
      | .error _ => (bookingStartMinutes, bookingEndMinutes)
    let startDateTime := shifted.1
    let endDateTime := shifted.2
    match env.opHours (getCorrectDayOfWeek (r.booking_date.getD 0)) with
    | [] => .error .outsideHours
    | operatingRow :: _ =>
        let openMinutes := timeToMinutes operatingRow.open_time
        let closeMinutes := timeToMinutes operatingRow.close_time
        if bookingStartMinutes < openMinutes ||
            bookingEndMinutes > closeMinutes then
          .error .outsideHours
        else
          let actualStartMinutes := minutesOfDay startDateTime
          let actualEndMinutes := minutesOfDay endDateTime
          let adjusted :=
            if actualStartMinutes < openMinutes ||
                actualEndMinutes > closeMinutes then
              ((if actualStartMinutes < openMinutes then
                  setMinutesOfDay startDateTime openMinutes
                else startDateTime),
               decide (actualEndMinutes > closeMinutes))
            else
              (startDateTime, false)
          if (env.events selectedPhotographer).any (fun e =>
              isBlockingEvent e &&
                tripleOverlap bookingStartMinutes bookingEndMinutes
                  e.startMin e.endMin) then
            .error .conflict
          else
            .ok { photographer := selectedPhotographer,
                  startDateTimeMin := adjusted.1,
                  endDateTimeMin := endDateTime,
                  travelWarning := adjusted.2 }

/-! ## Concrete scenarios -/

/-- The slot-listing query of the Monday scenario: sqft 2500, no price, no
address (day index 20458 is a Monday: `getCorrectDayOfWeek 20458 = 1`). -/
def mondayQuery : AvailQuery :=
  { date := 20458, service_type := none, square_footage := some (some 2500),
    property_price := none, property_address := none }

/-- Monday 09:00-17:00 operating hours, no holidays, one photographer whose
calendar is fully free; today is far enough back that the cutoff gate is
idle. -/
def mondayFreeEnv : AvailEnv :=
  { today := 20450, nowHours := 9, nowMinutes := 0, holidays := [],
    opHours := fun w => if w = 1 then [⟨⟨9, 0⟩, ⟨17, 0⟩⟩] else [],
    photographers := ["primary@example.com"],
    events := fun _ => [],
    travel := fun _ => .ok 30 }

/-- Same scenario with the queried Monday being tomorrow, and the current
clock a parameter. -/
def tomorrowEnv (nowHours nowMinutes : Nat) : AvailEnv :=
  { today := 20457, nowHours := nowHours, nowMinutes := nowMinutes,
    holidays := [],
    opHours := fun w => if w = 1 then [⟨⟨9, 0⟩, ⟨17, 0⟩⟩] else [],
    photographers := ["primary@example.com"],
    events := fun _ => [],
    travel := fun _ => .ok 30 }

/-- The slots the Monday scenario actually yields: starts 09:00..16:00 at the
30-minute step (minutes 540..960), each one hour long. -/
def mondayExpectedSlots : List TimeSlot :=
  [⟨540, 600, "primary@example.com", true⟩,
   ⟨570, 630, "primary@example.com", true⟩,
   ⟨600, 660, "primary@example.com", true⟩,
   ⟨630, 690, "primary@example.com", true⟩,
   ⟨660, 720, "primary@example.com", true⟩,
   ⟨690, 750, "primary@example.com", true⟩,
   ⟨720, 780, "primary@example.com", true⟩,
   ⟨750, 810, "primary@example.com", true⟩,
   ⟨780, 840, "primary@example.com", true⟩,
   ⟨810, 870, "primary@example.com", true⟩,
   ⟨840, 900, "primary@example.com", true⟩,
   ⟨870, 930, "primary@example.com", true⟩,
   ⟨900, 960, "primary@example.com", true⟩,
   ⟨930, 990, "primary@example.com", true⟩,
   ⟨960, 1020, "primary@example.com", true⟩]

/-! ## Claim theorems -/

/-- C2: a date with an active holiday row always yields the empty slot list,
whatever the operating hours, events or clock are. -/
theorem c2_holiday_always_empty (env : AvailEnv) (q : AvailQuery)
    (h : q.date ∈ env.holidays) : availableSlots env q = Except.ok [] := by
  unfold availableSlots
  split_ifs <;> rfl

/-- Witness for C2: a concrete holiday environment. -/
def mondayHolidayEnv : AvailEnv :=
  { mondayFreeEnv with holidays := [20458] }

theorem c2_holiday_always_empty_witness :
    (20458 : Int) ∈ mondayHolidayEnv.holidays ∧
      availableSlots mondayHolidayEnv mondayQuery = Except.ok [] :=
  ⟨by decide, c2_holiday_always_empty mondayHolidayEnv mondayQuery (by decide)⟩

/-- C4: with a square footage given, the duration quote decomposes as
`base + priceSurcharge + 2 × travelBuffer` when an address is supplied (the
buffer falling back to 30 minutes when the travel estimation errors), and as
`base + priceSurcharge` when it is not. -/
theorem c4_duration_decomposition (s : Int) (price : Option Int) (a : String)
    (travel : Except Unit Nat) :
    calculateDurationFromSquareFootage (some s) price (some a) travel =
        baseMinutes s + priceSurchargeMinutes price +
          2 * travelBufferUsed travel ∧
      calculateDurationFromSquareFootage (some s) price none travel =
        baseMinutes s + priceSurchargeMinutes price := by
  cases price <;> cases travel <;>
    simp [calculateDurationFromSquareFootage, baseMinutes,
      priceSurchargeMinutes, travelBufferUsed] <;>
    (try split_ifs) <;> omega

/-- C5 counterexample: no square footage, `service_type = "standard"`, an
address present and a 30-minute travel buffer available — the route duration
is the bare table value 120, not `120 + 2 × 30` as the claim's travel-addition
clause predicts. -/
def c5Query : AvailQuery :=
  { date := 20458, service_type := some "standard", square_footage := none,
    property_price := none,
    property_address := some "123 Main St, Jupiter, FL" }

theorem c5_travel_not_added_counterexample :
    routeDuration c5Query (fun _ => Except.ok 30) = 120 ∧
      routeDuration c5Query (fun _ => Except.ok 30) ≠ 120 + 2 * 30 := by
  decide

/-- C5 amended: without a square footage the duration is exactly the coarse
service-type table value; the presence of an address changes nothing in this
path (travel is not added to the table value). -/
theorem c5_service_type_table (d : Int) (st : String) (price : Option Int)
    (a : String) (travel : Option Int → Except Unit Nat) :
    routeDuration
        { date := d, service_type := some st, square_footage := none,
          property_price := price, property_address := some a } travel =
        serviceTypeDuration st ∧
      routeDuration
        { date := d, service_type := some st, square_footage := none,
          property_price := price, property_address := none } travel =
        serviceTypeDuration st :=
  ⟨rfl, rfl⟩

/-- C7 counterexample: a zero-second route duration produces a zero-minute
buffer, so the result is not always at least 30 minutes. -/
theorem c7_zero_buffer_counterexample :
    calculateTravelTimeBuffer (Except.ok 0) = 0 ∧
      ¬ 30 ≤ calculateTravelTimeBuffer (Except.ok 0) := by
  decide

/-- C7 amended: whenever the estimated one-way duration is at least one
second, the buffer is the one-way minutes (`ceil` of seconds over 60) rounded
up to the nearest 30-minute multiple, and hence at least 30. -/
theorem c7_buffer_rounds_up (seconds : Nat) (h : 1 ≤ seconds) :
    calculateTravelTimeBuffer (Except.ok seconds) % 30 = 0 ∧
      jsCeilDiv seconds 60 ≤ calculateTravelTimeBuffer (Except.ok seconds) ∧
      calculateTravelTimeBuffer (Except.ok seconds) <
        jsCeilDiv seconds 60 + 30 ∧
      30 ≤ calculateTravelTimeBuffer (Except.ok seconds) := by
  simp only [calculateTravelTimeBuffer, calculateTravelTime, jsCeilDiv]
  omega

theorem c7_buffer_rounds_up_witness :
    1 ≤ 1200 ∧
      (calculateTravelTimeBuffer (Except.ok 1200) % 30 = 0 ∧
        jsCeilDiv 1200 60 ≤ calculateTravelTimeBuffer (Except.ok 1200) ∧
        calculateTravelTimeBuffer (Except.ok 1200) < jsCeilDiv 1200 60 + 30 ∧
        30 ≤ calculateTravelTimeBuffer (Except.ok 1200)) :=
  ⟨by decide, c7_buffer_rounds_up 1200 (by decide)⟩

/-- C10: when geocoding fails and the normalized address mentions neither
`STUART` nor `SE FEDERAL HWY`, `addressToLatLng` raises no error and returns
the office's own coordinates (so a route lookup against the result is
office-to-office). -/
theorem c10_geocode_failure_office_fallback (address : String)
    (h1 : address ≠ "")
    (h2 : jsIncludes (jsToUpper (jsTrim address)) "STUART" = false)
    (h3 : jsIncludes (jsToUpper (jsTrim address)) "SE FEDERAL HWY" = false) :
    addressToLatLng address (Except.error ()) = Except.ok officeLatLng := by
  unfold addressToLatLng
  rw [if_neg h1]
  simp [h2, h3]

theorem c10_geocode_failure_office_fallback_witness :
    ("123 Main St, Jupiter, FL" : String) ≠ "" ∧
      jsIncludes (jsToUpper (jsTrim "123 Main St, Jupiter, FL")) "STUART" =
        false ∧
      addressToLatLng "123 Main St, Jupiter, FL" (Except.error ()) =
        Except.ok officeLatLng :=
  ⟨by decide, by decide,
    c10_geocode_failure_office_fallback "123 Main St, Jupiter, FL"
      (by decide) (by decide) (by decide)⟩

deriving instance DecidableEq for Except

/-- C1 counterexample: the Monday scenario yields 15 slots, not the 17 the
claim states (starts run 09:00..16:00 inclusive at the 30-minute step). -/
theorem c1_slot_count_counterexample :
    (availableSlots mondayFreeEnv mondayQuery).map List.length =
        Except.ok 15 ∧ (15 : Nat) ≠ 17 := by
  decide

/-- C1 amended: the Monday scenario (hours 09:00-17:00, no holidays, one
fully free photographer, sqft 2500 → 60 minutes, no address) enumerates
starts at the 30-minute step from the open time; the list includes
`{09:00,10:00}`, ends with `{16:00,17:00}` and has length 15. -/
theorem c1_monday_scenario :
    availableSlots mondayFreeEnv mondayQuery = Except.ok mondayExpectedSlots ∧
      (⟨540, 600, "primary@example.com", true⟩ : TimeSlot) ∈
        mondayExpectedSlots ∧
      mondayExpectedSlots.getLast? =
        some ⟨960, 1020, "primary@example.com", true⟩ ∧
      mondayExpectedSlots.length = 15 := by
  decide

/-- In the tomorrow scenario everything except the cutoff test is fixed: the
result is the full Monday slot list when the cutoff passes and empty when it
does not. -/
theorem availableSlots_tomorrowEnv (nowHours nowMinutes : Nat) :
    availableSlots (tomorrowEnv nowHours nowMinutes) mondayQuery =
      if isBeforeCutoffTime nowHours nowMinutes then
        Except.ok mondayExpectedSlots
      else
        Except.ok [] := by
  cases hc : isBeforeCutoffTime nowHours nowMinutes
  · unfold availableSlots
    simp only [tomorrowEnv, mondayQuery]
    rw [hc]
    decide
  · unfold availableSlots
    simp only [tomorrowEnv, mondayQuery]
    rw [hc]
    decide

/-- C3 counterexample: at exactly 17:00 the claim says tomorrow's list is
empty, but the cutoff test still passes (`hours === 17 && minutes === 0`) and
the full slot list is returned. -/
theorem c3_exact_cutoff_counterexample :
    availableSlots (tomorrowEnv 17 0) mondayQuery =
        Except.ok mondayExpectedSlots ∧
      mondayExpectedSlots ≠ ([] : List TimeSlot) := by
  constructor
  · rw [availableSlots_tomorrowEnv]
    decide
  · decide

/-- C3 amended: for the tomorrow scenario the slot list is empty iff the
current local time is strictly after 17:00 (at exactly 17:00 the booking is
still allowed). -/
theorem c3_tomorrow_empty_iff_after_cutoff (nowHours nowMinutes : Nat)
    (hm : nowMinutes < 60) :
    (availableSlots (tomorrowEnv nowHours nowMinutes) mondayQuery =
        Except.ok []) ↔ 17 * 60 < nowHours * 60 + nowMinutes := by
  rw [availableSlots_tomorrowEnv]
  have hne : mondayExpectedSlots ≠ ([] : List TimeSlot) := by decide
  cases hc : isBeforeCutoffTime nowHours nowMinutes
  · simp only [Bool.false_eq_true, if_false]
    simp only [isBeforeCutoffTime, Bool.or_eq_false_iff, Bool.and_eq_false_iff,
      decide_eq_false_iff_not, Nat.not_lt] at hc
    constructor
    · intro _
      rcases hc with ⟨h17, h2⟩
      rcases h2 with h | h
      · omega
      · omega
    · intro _
      trivial
  · simp only [if_true]
    simp only [isBeforeCutoffTime, Bool.or_eq_true_iff, Bool.and_eq_true_iff,
      decide_eq_true_iff] at hc
    constructor
    · intro he
      exact absurd (Except.ok.inj he) hne
    · intro hlt
      omega

theorem c3_tomorrow_empty_iff_after_cutoff_witness :
    (0 : Nat) < 60 ∧
      availableSlots (tomorrowEnv 18 0) mondayQuery = Except.ok [] :=
  ⟨by decide,
    (c3_tomorrow_empty_iff_after_cutoff 18 0 (by decide)).mpr (by decide)⟩

/-- C9: the adjacent-gap-sufficiency check runs only when the chosen adjacent
event's location passes the guard (truthy and not containing
`'825 Parkway St'`); when both the most recent prior event and the earliest
next event fail the guard (no location, empty location, or the office
address), the candidate is never rejected for insufficient travel gap —
whatever the gaps and the travel lookups are. -/
theorem c9_gap_check_needs_offsite_location
    (photographerEvents : List MSEvent) (slotStartMin slotEndDateMin : Int)
    (travel : Option Int → Except Unit Nat)
    (hPrior : Option.all (fun e => !locationTriggersGapCheck e.location)
      (mostRecentPriorEvent (photographerEvents.filter (fun e =>
        isBlockingEvent e && e.endMin < slotStartMin))) = true)
    (hNext : Option.all (fun e => !locationTriggersGapCheck e.location)
      (earliestNextEvent (photographerEvents.filter (fun e =>
        isBlockingEvent e && e.startMin > slotEndDateMin))) = true) :
    hasSufficientTravelTime photographerEvents slotStartMin slotEndDateMin
      travel = true := by
  unfold hasSufficientTravelTime
  cases hp : mostRecentPriorEvent (photographerEvents.filter (fun e =>
      isBlockingEvent e && e.endMin < slotStartMin)) with
  | none =>
      cases hn : earliestNextEvent (photographerEvents.filter (fun e =>
          isBlockingEvent e && e.startMin > slotEndDateMin)) with
      | none => simp [hp, hn]
      | some nextEvent =>
          rw [hn] at hNext
          simp only [Option.all, Bool.not_eq_true'] at hNext
          simp [hp, hn, hNext]
  | some mostRecentEvent =>
      rw [hp] at hPrior
      simp only [Option.all, Bool.not_eq_true'] at hPrior
      cases hn : earliestNextEvent (photographerEvents.filter (fun e =>
          isBlockingEvent e && e.startMin > slotEndDateMin)) with
      | none => simp [hp, hn, hPrior]
      | some nextEvent =>
          rw [hn] at hNext
          simp only [Option.all, Bool.not_eq_true'] at hNext
          simp [hp, hn, hPrior, hNext]

/-- C9 witness events: a blocking event with no location ending one minute
before the slot, and a blocking office-located event starting one minute
after it; gaps of one minute would fail any travel check, yet neither is
consulted. -/
def priorNoLocationEvent : MSEvent :=
  { showAs := "busy", startMin := 540, endMin := 599, location := none,
    subject := "prior" }

def nextOfficeEvent : MSEvent :=
  { showAs := "busy", startMin := 661, endMin := 720,
    location := some "825 Parkway St Suite 8, Jupiter, FL 33477",
    subject := "office block" }

theorem c9_gap_check_needs_offsite_location_witness :
    hasSufficientTravelTime [priorNoLocationEvent, nextOfficeEvent] 600 660
      (fun _ => Except.ok 30) = true :=
  c9_gap_check_needs_offsite_location [priorNoLocationEvent, nextOfficeEvent]
    600 660 (fun _ => Except.ok 30) (by decide) (by decide)

/-- C6 counterexample environment: the booked Monday is an active holiday,
every other precondition is satisfiable. -/
def holidayBookingEnv : BookingEnv :=
  { holidays := [20458],
    opHours := fun w => if w = 1 then [⟨⟨9, 0⟩, ⟨17, 0⟩⟩] else [],
    photographers := ["primary@example.com"],
    events := fun _ => [],
    travelSec := Except.ok 1700 }

def holidayBookingReq : BookingReq :=
  { booking_date := some 20458, start_time := some ⟨10, 0⟩,
    end_time := some ⟨11, 0⟩, customer_name := some "Jane Doe",
    customer_email := some "jane@example.com", customer_phone := none,
    property_address := some "123 Main St", property_city := some "Jupiter",
    notes := none, photographer_email := none }

/-- C6 counterexample: the booked date has an active holiday row, yet the
create-booking route succeeds (the POST path never queries the holiday
table), refuting the claim's `Holiday` failure mode. -/
theorem c6_holiday_booking_succeeds_counterexample :
    holidayBookingEnv.holidays = [20458] ∧
      holidayBookingReq.booking_date = some 20458 ∧
      createBooking holidayBookingEnv holidayBookingReq =
        Except.ok
          { photographer := "primary@example.com", startDateTimeMin := 570,
            endDateTimeMin := 690, travelWarning := false } := by
  decide

/-- C6 amended: the create-booking route fails with `MissingFields` when a
required field is absent, with `OutsideHours` when the weekday has no active
operating-hours row or the requested span leaves the active hours, and with
`Conflict` when the requested span overlaps a fresh blocking event of the
selected resource; when all those checks pass it succeeds — there is no
holiday check on this path (the `Holiday` failure exists only in the update
route). -/
theorem c6_create_booking_failure_modes :
    (∀ (env : BookingEnv) (r : BookingReq),
      missingRequiredFields r = true →
      createBooking env r = Except.error BookingError.missingFields) ∧
    (∀ (env : BookingEnv) (r : BookingReq),
      missingRequiredFields r = false →
      env.photographers.isEmpty = false →
      (match r.photographer_email with
        | some p => !(env.photographers.contains p)
        | none => false) = false →
      env.opHours (getCorrectDayOfWeek (r.booking_date.getD 0)) = [] →
      createBooking env r = Except.error BookingError.outsideHours) ∧
    (∀ (env : BookingEnv) (r : BookingReq) (row : OpRow) (rest : List OpRow),
      missingRequiredFields r = false →
      env.photographers.isEmpty = false →
      (match r.photographer_email with
        | some p => !(env.photographers.contains p)
        | none => false) = false →
      env.opHours (getCorrectDayOfWeek (r.booking_date.getD 0)) = row :: rest →
      (timeToMinutes (r.start_time.getD ⟨0, 0⟩) < timeToMinutes row.open_time ∨
        timeToMinutes row.close_time < timeToMinutes (r.end_time.getD ⟨0, 0⟩)) →
      createBooking env r = Except.error BookingError.outsideHours) ∧
    (∀ (env : BookingEnv) (r : BookingReq) (row : OpRow) (rest : List OpRow),
      missingRequiredFields r = false →
      env.photographers.isEmpty = false →
      (match r.photographer_email with
        | some p => !(env.photographers.contains p)
        | none => false) = false →
      env.opHours (getCorrectDayOfWeek (r.booking_date.getD 0)) = row :: rest →
      timeToMinutes row.open_time ≤ timeToMinutes (r.start_time.getD ⟨0, 0⟩) →
      timeToMinutes (r.end_time.getD ⟨0, 0⟩) ≤ timeToMinutes row.close_time →
      (env.events (r.photographer_email.getD (env.photographers.headD ""))).any
        (fun e => isBlockingEvent e &&
          tripleOverlap (timeToMinutes (r.start_time.getD ⟨0, 0⟩))
            (timeToMinutes (r.end_time.getD ⟨0, 0⟩)) e.startMin e.endMin) =
        true →
      createBooking env r = Except.error BookingError.conflict) ∧
    (∀ (env : BookingEnv) (r : BookingReq) (row : OpRow) (rest : List OpRow),
      missingRequiredFields r = false →
      env.photographers.isEmpty = false →
      (match r.photographer_email with
        | some p => !(env.photographers.contains p)
        | none => false) = false →
      env.opHours (getCorrectDayOfWeek (r.booking_date.getD 0)) = row :: rest →
      timeToMinutes row.open_time ≤ timeToMinutes (r.start_time.getD ⟨0, 0⟩) →
      timeToMinutes (r.end_time.getD ⟨0, 0⟩) ≤ timeToMinutes row.close_time →
      (env.events (r.photographer_email.getD (env.photographers.headD ""))).any
        (fun e => isBlockingEvent e &&
          tripleOverlap (timeToMinutes (r.start_time.getD ⟨0, 0⟩))
            (timeToMinutes (r.end_time.getD ⟨0, 0⟩)) e.startMin e.endMin) =
        false →
      ∃ b, createBooking env r = Except.ok b) := by
  refine ⟨?_, ?_, ?_, ?_, ?_⟩
  · intro env r hm
    simp [createBooking, hm]
  · intro env r hm hp hv hrow
    simp only [createBooking, hm, hp, hv, hrow]
    simp
  · intro env r row rest hm hp hv hrow hspan
    simp only [createBooking, hm, hp, hv, hrow, Bool.false_eq_true, if_false]
    split_ifs with h1 <;> simp_all
  · intro env r row rest hm hp hv hrow hopen hclose hconf
    simp only [createBooking, hm, hp, hv, hrow, hconf, Bool.false_eq_true,
      if_false]
    split_ifs with h1 <;>
      first
        | (exfalso; simp only [Bool.or_eq_true, decide_eq_true_eq] at h1;
            rcases h1 with h1 | h1 <;> omega)
        | rfl
  · intro env r row rest hm hp hv hrow hopen hclose hconf
    simp only [createBooking, hm, hp, hv, hrow, hconf, Bool.false_eq_true,
      if_false]
    split_ifs with h1 h2 <;>
      first
        | (exfalso; simp only [Bool.or_eq_true, decide_eq_true_eq] at h1;
            rcases h1 with h1 | h1 <;> omega)
        | exact ⟨_, rfl⟩

theorem timeToMinutes_nonneg (t : HM) : 0 ≤ timeToMinutes t := by
  unfold timeToMinutes
  positivity

/-- C8: when every validation passes but the travel-expanded window leaves
the operating hours, the create-booking route does not fail: the stored start
is silently clamped up to the opening time (`max`), the end keeps its travel
overflow, and overflow past closing merely sets the warning note flag. -/
theorem c8_travel_overflow_clamped_not_rejected (env : BookingEnv)
    (r : BookingReq) (seconds : Nat) (row : OpRow) (rest : List OpRow)
    (hm : missingRequiredFields r = false)
    (hp : env.photographers.isEmpty = false)
    (hv : (match r.photographer_email with
      | some p => !(env.photographers.contains p)
      | none => false) = false)
    (htr : env.travelSec = Except.ok seconds)
    (hrow : env.opHours (getCorrectDayOfWeek (r.booking_date.getD 0)) =
      row :: rest)
    (hopen : timeToMinutes row.open_time ≤
      timeToMinutes (r.start_time.getD ⟨0, 0⟩))
    (hclose : timeToMinutes (r.end_time.getD ⟨0, 0⟩) ≤
      timeToMinutes row.close_time)
    (hnowrapStart : (jsCeilDiv seconds 1800 : Int) * 30 ≤
      timeToMinutes (r.start_time.getD ⟨0, 0⟩))
    (hstartlt : timeToMinutes (r.start_time.getD ⟨0, 0⟩) < 1440)
    (hnowrapEnd : timeToMinutes (r.end_time.getD ⟨0, 0⟩) +
      (jsCeilDiv seconds 1800 : Int) * 30 < 1440)
    (hconf : (env.events (r.photographer_email.getD
        (env.photographers.headD ""))).any
      (fun e => isBlockingEvent e &&
        tripleOverlap (timeToMinutes (r.start_time.getD ⟨0, 0⟩))
          (timeToMinutes (r.end_time.getD ⟨0, 0⟩)) e.startMin e.endMin) =
      false) :
    createBooking env r = Except.ok
      { photographer :=
          r.photographer_email.getD (env.photographers.headD ""),
        startDateTimeMin := max (timeToMinutes row.open_time)
          (timeToMinutes (r.start_time.getD ⟨0, 0⟩) -
            (jsCeilDiv seconds 1800 : Int) * 30),
        endDateTimeMin := timeToMinutes (r.end_time.getD ⟨0, 0⟩) +
          (jsCeilDiv seconds 1800 : Int) * 30,
        travelWarning := decide (timeToMinutes row.close_time <
          timeToMinutes (r.end_time.getD ⟨0, 0⟩) +
            (jsCeilDiv seconds 1800 : Int) * 30) } := by
  have hstart0 := timeToMinutes_nonneg (r.start_time.getD ⟨0, 0⟩)
  have hend0 := timeToMinutes_nonneg (r.end_time.getD ⟨0, 0⟩)
  have hB0 : (0 : Int) ≤ (jsCeilDiv seconds 1800 : Int) * 30 := by positivity
  simp only [createBooking, hm, hp, hv, htr, hrow, hconf, minutesOfDay,
    setMinutesOfDay]
  have e1 : (timeToMinutes (r.start_time.getD ⟨0, 0⟩) -
      (jsCeilDiv seconds 1800 : Int) * 30) % 1440 =
      timeToMinutes (r.start_time.getD ⟨0, 0⟩) -
        (jsCeilDiv seconds 1800 : Int) * 30 :=
    Int.emod_eq_of_lt (by omega) (by omega)
  have e2 : (timeToMinutes (r.end_time.getD ⟨0, 0⟩) +
      (jsCeilDiv seconds 1800 : Int) * 30) % 1440 =
      timeToMinutes (r.end_time.getD ⟨0, 0⟩) +
        (jsCeilDiv seconds 1800 : Int) * 30 :=
    Int.emod_eq_of_lt (by omega) (by omega)
  have e3 : (timeToMinutes (r.start_time.getD ⟨0, 0⟩) -
      (jsCeilDiv seconds 1800 : Int) * 30).fdiv 1440 = 0 := by
    rw [Int.fdiv_eq_ediv _ (by norm_num)]
    omega
  simp only [e1, e2, e3]
  split_ifs with h1 h2 <;> simp_all <;> omega

/-- C8 witness scenario: Monday 09:00-17:00, request 09:30-16:40, a
3000-second one-way estimate (buffer 60): the travel-expanded window
08:30-17:40 leaves hours on both sides; the booking succeeds with the start
clamped to 09:00, the end kept at 17:40, and the warning flag set. -/
def c8Env : BookingEnv :=
  { holidays := [],
    opHours := fun w => if w = 1 then [⟨⟨9, 0⟩, ⟨17, 0⟩⟩] else [],
    photographers := ["primary@example.com"],
    events := fun _ => [],
    travelSec := Except.ok 3000 }

def c8Req : BookingReq :=
  { booking_date := some 20458, start_time := some ⟨9, 30⟩,
    end_time := some ⟨16, 40⟩, customer_name := some "Jane Doe",
    customer_email := some "jane@example.com", customer_phone := none,
    property_address := some "123 Main St", property_city := none,
    notes := none, photographer_email := none }

theorem c8_travel_overflow_clamped_not_rejected_witness :
    createBooking c8Env c8Req = Except.ok
      { photographer := "primary@example.com", startDateTimeMin := 540,
        endDateTimeMin := 1060, travelWarning := true } := by
  rw [c8_travel_overflow_clamped_not_rejected c8Env c8Req 3000
    ⟨⟨9, 0⟩, ⟨17, 0⟩⟩ [] (by decide) (by decide) (by decide) (by decide)
    (by decide) (by decide) (by decide) (by decide) (by decide) (by decide)
    (by decide)]
  decide

/-- C6 witness scenarios: one for each failure mode and one success. -/
def bookingEnvOk : BookingEnv :=
  { holidays := [],
    opHours := fun w => if w = 1 then [⟨⟨9, 0⟩, ⟨17, 0⟩⟩] else [],
    photographers := ["primary@example.com"],
    events := fun _ => [],
    travelSec := Except.error () }

def bookingEnvNoHours : BookingEnv :=
  { bookingEnvOk with opHours := fun _ => [] }

def bookingEnvBusy : BookingEnv :=
  { bookingEnvOk with
    events := fun _ =>
      [{ showAs := "busy", startMin := 615, endMin := 645, location := none,
         subject := "shoot" }] }

def reqValidBooking : BookingReq :=
  { booking_date := some 20458, start_time := some ⟨10, 0⟩,
    end_time := some ⟨11, 0⟩, customer_name := some "Jane Doe",
    customer_email := some "jane@example.com", customer_phone := none,
    property_address := some "123 Main St", property_city := none,
    notes := none, photographer_email := none }

def reqMissingDate : BookingReq :=
  { reqValidBooking with booking_date := none }

def reqTooEarly : BookingReq :=
  { reqValidBooking with start_time := some ⟨8, 0⟩, end_time := some ⟨9, 0⟩ }

theorem c6_create_booking_failure_modes_witness :
    createBooking bookingEnvOk reqMissingDate =
        Except.error BookingError.missingFields ∧
      createBooking bookingEnvNoHours reqValidBooking =
        Except.error BookingError.outsideHours ∧
      createBooking bookingEnvOk reqTooEarly =
        Except.error BookingError.outsideHours ∧
      createBooking bookingEnvBusy reqValidBooking =
        Except.error BookingError.conflict ∧
      ∃ b, createBooking bookingEnvOk reqValidBooking = Except.ok b :=
  ⟨c6_create_booking_failure_modes.1 bookingEnvOk reqMissingDate (by decide),
   c6_create_booking_failure_modes.2.1 bookingEnvNoHours reqValidBooking
     (by decide) (by decide) (by decide) (by decide),
   c6_create_booking_failure_modes.2.2.1 bookingEnvOk reqTooEarly
     ⟨⟨9, 0⟩, ⟨17, 0⟩⟩ [] (by decide) (by decide) (by decide) (by decide)
     (by decide),
   c6_create_booking_failure_modes.2.2.2.1 bookingEnvBusy reqValidBooking
     ⟨⟨9, 0⟩, ⟨17, 0⟩⟩ [] (by decide) (by decide) (by decide) (by decide)
     (by decide) (by decide) (by decide),
   c6_create_booking_failure_modes.2.2.2.2 bookingEnvOk reqValidBooking
     ⟨⟨9, 0⟩, ⟨17, 0⟩⟩ [] (by decide) (by decide) (by decide) (by decide)
     (by decide) (by decide) (by decide)⟩
